import Mathlib

/-!
Shallow embedding of the MechGen job-lifecycle core.

The definitions below are translated from the repository sources:
  - src/lib/db.ts            (store operations on jobs, datasets, outputs)
  - src/lib/db-init.ts       (the UNIQUE(job_id, frame_index) constraint)
  - src/lib/processor.ts     (stub runner processDataset)
  - src/api/process/[jobId].ts (background runner processJobInBackground)
  - src/api/datasets/index.ts  (submit handler)

JavaScript conventions modelled explicitly:
  - optional / undefined arguments become Option values;
  - the idiom `v || null` maps 0 and the empty string to null (jsOrNullNat,
    jsOrNullStr), while `v ?? null` only maps undefined to null (Option.getD);
  - SQL COALESCE(a, b) becomes Option.orElse;
  - timestamps (new Date()) are abstracted as a Nat supplied by the caller;
  - Math.random is abstracted as an oracle function supplied by the caller;
  - JSONB metadata payloads are abstracted as opaque strings.
-/

namespace MechGen

/-- JavaScript `v || null` on an optional number: undefined and 0 are falsy. -/
def jsOrNullNat : Option Nat → Option Nat
  | none => none
  | some 0 => none
  | some n => some n

/-- JavaScript `v || null` on an optional string: undefined and "" are falsy. -/
def jsOrNullStr : Option String → Option String
  | none => none
  | some s => if s = "" then none else some s

/-- JavaScript truthiness of an optional number. -/
def jsTruthyNat : Option Nat → Bool
  | none => false
  | some 0 => false
  | some _ => true

/-- Job status enum from src/lib/db.ts. -/
inductive Status
  | pending
  | processing
  | completed
  | failed
deriving DecidableEq, Repr

/-- Row of the processing_jobs table (id and dataset_id omitted: a single
job is modelled; created_at and updated_at carry no claim content). -/
structure Job where
  status : Status
  progress : Nat
  current_step : Option String
  error_message : Option String
  started_at : Option Nat
  completed_at : Option Nat
deriving DecidableEq, Repr

/-- createJob (src/lib/db.ts): INSERT with status pending and progress 0. -/
def createJob : Job :=
  { status := Status.pending
    progress := 0
    current_step := none
    error_message := none
    started_at := none
    completed_at := none }

/-- updateJobStatus (src/lib/db.ts lines 201-228).
`progress ?? null` keeps the old value only for undefined; `currentStep || null`
is COALESCEd with the old value; `errorMessage || null` overwrites; the two
timestamps are COALESCE(old, candidate), i.e. first write wins. -/
def updateJobStatus (j : Job) (status : Status) (progress : Option Nat)
    (currentStep : Option String) (errorMessage : Option String) (now : Nat) : Job :=
  let startedAt : Option Nat := if status = Status.processing then some now else none
  let completedAt : Option Nat :=
    if status = Status.completed ∨ status = Status.failed then some now else none
  { status := status
    progress := progress.getD j.progress
    current_step := (jsOrNullStr currentStep).orElse (fun _ => j.current_step)
    error_message := jsOrNullStr errorMessage
    started_at := j.started_at.orElse (fun _ => startedAt)
    completed_at := j.completed_at.orElse (fun _ => completedAt) }

/-- updateJobProgress (src/lib/db.ts lines 230-245): progress and current_step
are overwritten (current_step with `currentStep || null`); status and the
timestamps are untouched. -/
def updateJobProgress (j : Job) (progress : Nat) (currentStep : Option String) : Job :=
  { j with
    progress := progress
    current_step := jsOrNullStr currentStep }

/-- Row of the datasets table (id, created_at, updated_at omitted). -/
structure Dataset where
  huggingface_id : String
  name : Option String
  description : Option String
  total_frames : Option Nat
  metadata : Option String
deriving DecidableEq, Repr

/-- Argument record of updateDataset (src/lib/db.ts lines 116-137). -/
structure DatasetUpdates where
  name : Option String
  description : Option String
  total_frames : Option Nat
  metadata : Option String
deriving DecidableEq, Repr

/-- An empty updates record (all fields undefined). -/
def DatasetUpdates.empty : DatasetUpdates :=
  { name := none, description := none, total_frames := none, metadata := none }

/-- updateDataset (src/lib/db.ts lines 116-137): every field is
COALESCE(`value || null`, old value); metadata is an object, so its truthiness
check only rejects undefined. -/
def updateDataset (d : Dataset) (u : DatasetUpdates) : Dataset :=
  { d with
    name := (jsOrNullStr u.name).orElse (fun _ => d.name)
    description := (jsOrNullStr u.description).orElse (fun _ => d.description)
    total_frames := (jsOrNullNat u.total_frames).orElse (fun _ => d.total_frames)
    metadata := u.metadata.orElse (fun _ => d.metadata) }

/-- createDataset (src/lib/db.ts lines 101-114) as called with only the id. -/
def createDataset (huggingfaceId : String) : Dataset :=
  { huggingface_id := huggingfaceId
    name := none
    description := none
    total_frames := none
    metadata := none }

/-- Row of the compressed_outputs table (id and created_at omitted;
gaussian_latent bytes and JSONB metadata abstracted). -/
structure OutputRow where
  job_id : Nat
  frame_index : Nat
  original_size : Option Nat
  compressed_size : Option Nat
  compression_ratio : Option ℚ
  gaussian_latent : Option (List Nat)
  metadata : Option String
deriving DecidableEq, Repr

/-- createCompressedOutput (src/lib/db.ts lines 249-283): the ratio is
`originalSize && compressedSize ? originalSize / compressedSize : null`
(JS truthiness, so 0 and undefined both lead to null), the stored sizes are
`originalSize || null` and `compressedSize || null`, and the latent is
`gaussianLatent || null` (a Buffer is an object, hence truthy when present). -/
def createCompressedOutput (jobId frameIndex : Nat)
    (originalSize compressedSize : Option Nat)
    (gaussianLatent : Option (List Nat)) (metadata : Option String) : OutputRow :=
  let compressionRatio : Option ℚ :=
    if jsTruthyNat originalSize && jsTruthyNat compressedSize then
      some ((originalSize.getD 0 : ℚ) / (compressedSize.getD 0 : ℚ))
    else none
  { job_id := jobId
    frame_index := frameIndex
    original_size := jsOrNullNat originalSize
    compressed_size := jsOrNullNat compressedSize
    compression_ratio := compressionRatio
    gaussian_latent := gaussianLatent
    metadata := metadata }

/-- One observable store write, in the order the runners issue them. -/
inductive Ev
  | statusWrite (st : Status) (progress : Option Nat) (step : Option String)
      (err : Option String)
  | progressWrite (progress : Nat) (step : Option String)
  | outputWrite (frameIndex : Nat)
  | datasetWrite (total_frames : Option Nat)
deriving DecidableEq, Repr

/-- The shared mutable store seen by one job run: the job row, its dataset row,
the compressed_outputs table, and the chronological log of store writes. -/
structure Store where
  job : Job
  dataset : Dataset
  outputs : List OutputRow
  log : List Ev
deriving DecidableEq, Repr

/-- Store-level updateJobStatus, recording the write in the log. -/
def stUpdateJobStatus (s : Store) (st : Status) (progress : Option Nat)
    (currentStep : Option String) (errorMessage : Option String) (now : Nat) : Store :=
  { s with
    job := updateJobStatus s.job st progress currentStep errorMessage now
    log := s.log ++ [Ev.statusWrite st progress currentStep errorMessage] }

/-- Store-level updateJobProgress, recording the write in the log. -/
def stUpdateJobProgress (s : Store) (progress : Nat) (currentStep : Option String) : Store :=
  { s with
    job := updateJobProgress s.job progress currentStep
    log := s.log ++ [Ev.progressWrite progress currentStep] }

/-- Store-level updateDataset, recording the write in the log. -/
def stUpdateDataset (s : Store) (u : DatasetUpdates) : Store :=
  { s with
    dataset := updateDataset s.dataset u
    log := s.log ++ [Ev.datasetWrite u.total_frames] }

/-- Error message raised by PostgreSQL on a duplicate (job_id, frame_index)
insert; the compressed_outputs table has CONSTRAINT unique_job_frame
UNIQUE(job_id, frame_index) (src/lib/db-init.ts line 105, scripts/migrate.sql). -/
def dupKeyMsg : String :=
  "duplicate key value violates unique constraint \x22unique_job_frame\x22"

/-- Store-level createCompressedOutput: a plain INSERT (no ON CONFLICT), so it
fails when a row with the same (job_id, frame_index) already exists. -/
def stCreateCompressedOutput (s : Store) (jobId frameIndex : Nat)
    (originalSize compressedSize : Option Nat)
    (gaussianLatent : Option (List Nat)) (metadata : Option String) :
    Except String Store :=
  if s.outputs.any (fun r => r.job_id == jobId && r.frame_index == frameIndex) then
    Except.error dupKeyMsg
  else
    Except.ok
      { s with
        outputs := s.outputs ++
          [createCompressedOutput jobId frameIndex originalSize compressedSize
            gaussianLatent metadata]
        log := s.log ++ [Ev.outputWrite frameIndex] }

/-- A resolved HuggingFace frame (src/lib/huggingface.ts): the index is the
position in the enumeration of media files, kept on the frame record. -/
structure HFFrame where
  index : Nat
  filename : String
deriving DecidableEq, Repr

/-- Step label written before processing one frame in processJobInBackground. -/
def frameStep (i total : Nat) : String :=
  "Processing frame " ++ toString (i + 1) ++ "/" ++ toString total

/-- Error message of the empty-frame branch of processJobInBackground
(src/api/process/[jobId].ts lines 119-128). -/
def noMediaMsg : String :=
  "No image/video files found in HuggingFace dataset. Make sure the dataset contains .jpg, .png, .mp4, or other media files."

/-- Per-frame loop of processJobInBackground (src/api/process/[jobId].ts lines
133-163): write the progress update, then insert the frame output. The mock
sizes drawn from Math.random are supplied by the oracle `sizes`; an insert
failure aborts the loop carrying the store at the point of failure. -/
def pjibLoop (jobId : Nat) (sizes : Nat → Nat × Nat) (total : Nat) :
    List HFFrame → Nat → Store → Except (String × Store) Store
  | [], _, s => Except.ok s
  | f :: rest, i, s =>
    let progress := 30 + i * 60 / total
    let s1 := stUpdateJobProgress s progress (some (frameStep i total))
    match stCreateCompressedOutput s1 jobId f.index (some (sizes i).1)
        (some (sizes i).2) none (some f.filename) with
    | Except.error e => Except.error (e, s1)
    | Except.ok s2 => pjibLoop jobId sizes total rest (i + 1) s2

/-- Body of processJobInBackground (src/api/process/[jobId].ts lines 93-174),
up to the enclosing try/catch. The resolved frame set returned by
downloadDatasetFrames is a parameter (external collaborator); its totalFrames
field is frames.length and its metadata is abstracted as hfMeta. -/
def pjibBody (jobId : Nat) (hfId hfMeta : String) (sizes : Nat → Nat × Nat)
    (now : Nat) (frames : List HFFrame) (s : Store) : Except (String × Store) Store :=
  let s1 := stUpdateJobStatus s Status.processing (some 10)
    (some "Downloading dataset from HuggingFace") none now
  let s2 := stUpdateDataset s1
    { name := none, description := none
      total_frames := some frames.length, metadata := some hfMeta }
  if frames.length = 0 then
    Except.ok (stUpdateJobStatus s2 Status.failed none none (some noMediaMsg) now)
  else
    let s3 := stUpdateJobProgress s2 30
      (some ("Compressing " ++ toString frames.length ++ " frames"))
    match pjibLoop jobId sizes frames.length frames 0 s3 with
    | Except.error e => Except.error e
    | Except.ok s4 =>
      Except.ok (stUpdateJobStatus s4 Status.completed (some 100)
        (some ("Successfully compressed " ++ toString frames.length ++
          " frames from " ++ hfId)) none now)

/-- processJobInBackground (src/api/process/[jobId].ts lines 93-186): the body
wrapped in try/catch; any thrown error becomes a failed status update carrying
the error message verbatim. -/
def processJobInBackground (jobId : Nat) (hfId hfMeta : String)
    (sizes : Nat → Nat × Nat) (now : Nat) (frames : List HFFrame) (s : Store) : Store :=
  match pjibBody jobId hfId hfMeta sizes now frames s with
  | Except.ok s1 => s1
  | Except.error (msg, s1) =>
    stUpdateJobStatus s1 Status.failed none none (some msg) now

/-- Frame list returned by the local downloadDatasetFrames stub in
src/lib/processor.ts (lines 15-35): it always returns an empty frame list
with totalFrames 0. -/
def stubDownloadFrames : List String := []

/-- The three fabricated frame paths of the empty branch of processDataset
(src/lib/processor.ts lines 119-123). -/
def mockFramePaths : List String :=
  ["/tmp/mock_frame_0.jpg", "/tmp/mock_frame_1.jpg", "/tmp/mock_frame_2.jpg"]

/-- One per-frame record returned by the mock runCompressionAlgorithm. -/
structure MockResult where
  frame_index : Nat
  status : String
  original_size : Nat
  compressed_size : Nat
deriving DecidableEq, Repr

/-- runCompressionAlgorithm (src/lib/processor.ts lines 43-77): for each path
it fabricates status success, original_size = 100000 + floor(random * 50000)
and compressed_size = 10000 + floor(random * 5000); the two random draws are
supplied by the oracles r1 and r2 and reduced into the documented ranges. -/
def runCompressionAlgorithm (r1 r2 : Nat → Nat) (framePaths : List String) :
    List MockResult :=
  (List.range framePaths.length).map fun i =>
    { frame_index := i
      status := "success"
      original_size := 100000 + r1 i % 50000
      compressed_size := 10000 + r2 i % 5000 }

/-- Output-saving loop shared by both branches of processDataset
(src/lib/processor.ts lines 131-144 and 157-170): frames whose status is not
success are skipped; an insert failure aborts with the store at that point. -/
def saveResults (jobId : Nat) : List MockResult → Store → Except (String × Store) Store
  | [], s => Except.ok s
  | r :: rest, s =>
    if r.status == "success" then
      match stCreateCompressedOutput s jobId r.frame_index (some r.original_size)
          (some r.compressed_size) none (some "stub") with
      | Except.error e => Except.error (e, s)
      | Except.ok s1 => saveResults jobId rest s1
    else
      saveResults jobId rest s

/-- Body of the stub runner processDataset (src/lib/processor.ts lines 86-180),
up to the enclosing try/catch. Its frame resolution is the local stub, which
always yields the empty list, so the run takes the mock branch: it fabricates
three frames, saves three outputs, and completes the job. -/
def processDatasetBody (jobId : Nat) (r1 r2 : Nat → Nat) (now : Nat) (s : Store) :
    Except (String × Store) Store :=
  let s1 := stUpdateJobStatus s Status.processing (some 0)
    (some "Initializing (stub mode)") none now
  let s2 := stUpdateJobProgress s1 10
    (some "Downloading dataset from HuggingFace (stub)")
  let frames := stubDownloadFrames
  let totalFrames := 0
  let s3 := stUpdateDataset s2
    { name := none, description := none
      total_frames := some totalFrames, metadata := some "stub-download-metadata" }
  if frames.length = 0 then
    let s4 := stUpdateJobProgress s3 30
      (some "Running Gaussian splatting compression (stub)")
    let results := runCompressionAlgorithm r1 r2 mockFramePaths
    let s5 := stUpdateJobProgress s4 70 (some "Saving compressed outputs")
    match saveResults jobId results s5 with
    | Except.error e => Except.error e
    | Except.ok s6 =>
      let s7 := stUpdateDataset s6
        { name := none, description := none
          total_frames := some mockFramePaths.length, metadata := none }
      Except.ok (stUpdateJobStatus s7 Status.completed (some 100)
        (some "Compression completed (stub mode - waiting for Phase 2 external compute)")
        none now)
  else
    let s4 := stUpdateJobProgress s3 30
      (some "Running Gaussian splatting compression (stub)")
    let results := runCompressionAlgorithm r1 r2 frames
    let s5 := stUpdateJobProgress s4 70 (some "Saving compressed outputs")
    match saveResults jobId results s5 with
    | Except.error e => Except.error e
    | Except.ok s6 =>
      Except.ok (stUpdateJobStatus s6 Status.completed (some 100)
        (some "Compression completed (stub mode - waiting for Phase 2 external compute)")
        none now)

/-- processDataset (src/lib/processor.ts lines 86-191): the body wrapped in
try/catch; a thrown error becomes a failed status update with the message. -/
def processDataset (jobId : Nat) (r1 r2 : Nat → Nat) (now : Nat) (s : Store) : Store :=
  match processDatasetBody jobId r1 r2 now s with
  | Except.ok s1 => s1
  | Except.error (msg, s1) =>
    stUpdateJobStatus s1 Status.failed none none (some msg) now

/-- State touched by the submit handler: the dataset registry and job list. -/
structure SubmitState where
  datasets : List Dataset
  jobs : List Job
deriving DecidableEq, Repr

/-- Response of the submit handler POST branch. -/
inductive SubmitResp
  | error400 (msg : String)
  | created201 (d : Dataset) (j : Job)
deriving DecidableEq, Repr

/-- Whether a submit response is the 201 created case. -/
def SubmitResp.isCreated : SubmitResp → Bool
  | SubmitResp.created201 _ _ => true
  | _ => false

/-- POST branch of the datasets handler (src/api/datasets/index.ts lines
31-71): reject a missing or empty huggingface_id, reject an id without a
slash character, otherwise reuse or create the dataset and create a pending
job; the body field is Option String (undefined when absent). -/
def submitDataset (st : SubmitState) (body : Option String) :
    SubmitState × SubmitResp :=
  match body with
  | none => (st, SubmitResp.error400 "Missing required field: huggingface_id")
  | some hfId =>
    if hfId = "" then
      (st, SubmitResp.error400 "Missing required field: huggingface_id")
    else if !(hfId.toList.contains '/') then
      (st, SubmitResp.error400 "Invalid huggingface_id format. Expected author/dataset")
    else
      match st.datasets.find? (fun d => d.huggingface_id == hfId) with
      | some d =>
        ({ st with jobs := st.jobs ++ [createJob] }, SubmitResp.created201 d createJob)
      | none =>
        let d := createDataset hfId
        ({ datasets := st.datasets ++ [d], jobs := st.jobs ++ [createJob] },
          SubmitResp.created201 d createJob)

/-- Modelled from the spec: the namespace/name shape required of an external
dataset id ("external identifier (unique, format namespace/name)") — a
namespace part and a name part, both nonempty, separated by one slash. -/
def hasNamespaceNameShape (s : String) : Bool :=
  match s.toList.splitOn '/' with
  | [ns, nm] => !ns.isEmpty && !nm.isEmpty
  | _ => false

/-- A fresh store: a pending job just created for a just-created dataset. -/
def freshStore (hfId : String) : Store :=
  { job := createJob
    dataset := createDataset hfId
    outputs := []
    log := [] }

/-- One write against the processing_jobs row, through either store
operation that the API layer can issue. -/
inductive JobWrite
  | statusW (st : Status) (progress : Option Nat) (step err : Option String) (now : Nat)
  | progressW (progress : Nat) (step : Option String)
deriving DecidableEq, Repr

/-- Apply one job write. -/
def applyWrite (j : Job) : JobWrite → Job
  | JobWrite.statusW st p cs em now => updateJobStatus j st p cs em now
  | JobWrite.progressW p cs => updateJobProgress j p cs

/-- Timestamp of the first write in the list that sets status to processing. -/
def firstStartTime : List JobWrite → Option Nat
  | [] => none
  | JobWrite.statusW st _ _ _ now :: ws =>
    if st = Status.processing then some now else firstStartTime ws
  | JobWrite.progressW _ _ :: ws => firstStartTime ws

/-- Timestamp of the first write in the list that sets a terminal status. -/
def firstFinishTime : List JobWrite → Option Nat
  | [] => none
  | JobWrite.statusW st _ _ _ now :: ws =>
    if st = Status.completed ∨ st = Status.failed then some now else firstFinishTime ws
  | JobWrite.progressW _ _ :: ws => firstFinishTime ws

/-- Ordering relation of ORDER BY frame_index ASC. -/
def byFrameIdx (a b : OutputRow) : Prop := a.frame_index ≤ b.frame_index

instance : DecidableRel byFrameIdx := fun a b => Nat.decLe a.frame_index b.frame_index

instance : IsTotal OutputRow byFrameIdx := ⟨fun a b => Nat.le_total a.frame_index b.frame_index⟩

instance : IsTrans OutputRow byFrameIdx := ⟨fun _ _ _ => Nat.le_trans⟩

/-- getOutputsByJobId (src/lib/db.ts lines 285-292): SELECT rows of the job
ORDER BY frame_index ASC, modelled as filter then sort. -/
def getOutputsByJobId (tbl : List OutputRow) (jobId : Nat) : List OutputRow :=
  List.insertionSort byFrameIdx (tbl.filter (fun r => r.job_id == jobId))

/-- SQL SUM over a nullable integer column: NULL values are ignored and the
result is NULL when no non-NULL value exists. -/
def sqlSumNat (l : List (Option Nat)) : Option Nat :=
  if l.filterMap id = [] then none else some (l.filterMap id).sum

/-- SQL AVG over a nullable column: NULL values are ignored and the result is
NULL when no non-NULL value exists. -/
def sqlAvgRat (l : List (Option ℚ)) : Option ℚ :=
  if l.filterMap id = [] then none
  else some ((l.filterMap id).sum / ((l.filterMap id).length : ℚ))

/-- Result row of getCompressionStats (src/lib/db.ts lines 305-321). -/
structure CompressionStats where
  total_frames : Nat
  total_original_size : Option Nat
  total_compressed_size : Option Nat
  avg_compression_ratio : Option ℚ
deriving DecidableEq, Repr

/-- getCompressionStats (src/lib/db.ts lines 305-321): COUNT(*) over all rows
of the job, SUM over the size columns, AVG over compression_ratio, with SQL
NULL-skipping aggregate semantics. -/
def getCompressionStats (tbl : List OutputRow) (jobId : Nat) : CompressionStats :=
  let rows := tbl.filter (fun r => r.job_id == jobId)
  { total_frames := rows.length
    total_original_size := sqlSumNat (rows.map (fun r => r.original_size))
    total_compressed_size := sqlSumNat (rows.map (fun r => r.compressed_size))
    avg_compression_ratio := sqlAvgRat (rows.map (fun r => OutputRow.compression_ratio r)) }

/-- The condition under which the submit handler POST branch returns 400:
the body id is missing, empty, or contains no slash character. -/
def rejectedByHandler : Option String → Bool
  | none => true
  | some s => s == "" || !(s.toList.contains '/')

/-- Whether an event is the output write of the given frame index. -/
def evIsOutput (fi : Nat) : Ev → Bool
  | Ev.outputWrite i => i == fi
  | _ => false

/-- Whether an event is a progress write carrying the given step label. -/
def evIsFrameProgress (stepStr : String) : Ev → Bool
  | Ev.progressWrite _ (some s) => s == stepStr
  | _ => false

/-- Reading of claim C5 on a trace: the output write of frame `fi` (processed
at position `pos` of `total`) is persisted before the progress update for that
frame; vacuously true when either event is missing. -/
def outputPersistedBeforeProgress (tr : List Ev) (fi pos total : Nat) : Bool :=
  match tr.findIdx? (evIsOutput fi), tr.findIdx? (evIsFrameProgress (frameStep pos total)) with
  | some oi, some pi => oi < pi
  | _, _ => true

/-- The two store writes issued for each frame by the loop of
processJobInBackground, in program order: progress first, then the output. -/
def loopEvents (total : Nat) : List HFFrame → Nat → List Ev
  | [], _ => []
  | f :: rest, i =>
    Ev.progressWrite (30 + i * 60 / total) (some (frameStep i total))
      :: Ev.outputWrite f.index :: loopEvents total rest (i + 1)

/-- A one-frame resolved frame set. -/
def demoFrames : List HFFrame := [⟨0, "f0.jpg"⟩]

/-- A two-frame resolved frame set. -/
def demoFrames2 : List HFFrame := [⟨0, "a.jpg"⟩, ⟨1, "b.jpg"⟩]

/-- A fixed randomness oracle for the mock sizes. -/
def demoSizes : Nat → Nat × Nat := fun _ => (100000, 10000)

/-- A job that has already reached the terminal status completed. -/
def demoCompletedJob : Job :=
  { status := Status.completed
    progress := 100
    current_step := some "done"
    error_message := none
    started_at := some 1
    completed_at := some 2 }

/-- A job that has already failed with a recorded error message. -/
def demoFailedJob : Job :=
  { status := Status.failed
    progress := 40
    current_step := some "step"
    error_message := some "earlier error"
    started_at := some 1
    completed_at := some 2 }

/-- A dataset with known frame count and display fields. -/
def demoDataset : Dataset :=
  { huggingface_id := "acme/demo"
    name := some "Demo"
    description := some "a demo dataset"
    total_frames := some 5
    metadata := some "old-metadata" }

/-- A store whose job already completed and whose outputs already hold a row
for (job 1, frame 0). -/
def demoStoreWithOutput : Store :=
  { job := demoCompletedJob
    dataset := createDataset "acme/demo"
    outputs := [createCompressedOutput 1 0 (some 100000) (some 10000) none (some "f0.jpg")]
    log := [] }

@[simp]
theorem stUpdateJobStatus_outputs (s : Store) (st : Status) (p : Option Nat)
    (cs em : Option String) (now : Nat) :
    (stUpdateJobStatus s st p cs em now).outputs = s.outputs := rfl

@[simp]
theorem stUpdateJobProgress_outputs (s : Store) (p : Nat) (cs : Option String) :
    (stUpdateJobProgress s p cs).outputs = s.outputs := rfl

@[simp]
theorem stUpdateDataset_outputs (s : Store) (u : DatasetUpdates) :
    (stUpdateDataset s u).outputs = s.outputs := rfl

@[simp]
theorem stUpdateJobStatus_job (s : Store) (st : Status) (p : Option Nat)
    (cs em : Option String) (now : Nat) :
    (stUpdateJobStatus s st p cs em now).job = updateJobStatus s.job st p cs em now := rfl

@[simp]
theorem updateJobStatus_status (j : Job) (st : Status) (p : Option Nat)
    (cs em : Option String) (now : Nat) :
    (updateJobStatus j st p cs em now).status = st := rfl

@[simp]
theorem updateJobStatus_error_message (j : Job) (st : Status) (p : Option Nat)
    (cs em : Option String) (now : Nat) :
    (updateJobStatus j st p cs em now).error_message = jsOrNullStr em := rfl

/-- C1 counterexample: a job whose status is the terminal completed is moved
back to pending by a later updateJobStatus call — the store does not make
terminal statuses immutable — and a duplicated runner trigger actually
performs such writes, moving a completed job to the other terminal status
failed. -/
theorem completed_status_overwritten_by_later_write :
    demoCompletedJob.status = Status.completed
    ∧ (updateJobStatus demoCompletedJob Status.pending none none none 5).status
        = Status.pending
    ∧ demoStoreWithOutput.job.status = Status.completed
    ∧ (processJobInBackground 1 "acme/demo" "md" demoSizes 9 demoFrames
        demoStoreWithOutput).job.status = Status.failed := by
  exact ⟨rfl, rfl, rfl, rfl⟩

/-- C1 (amended): updateJobStatus overwrites the status column
unconditionally with its argument, whatever the stored status was, and
updateJobProgress never touches status; the store offers no terminal-state
guard, so only the callers discipline keeps completed and failed terminal. -/
theorem updateJobStatus_overwrites_status (j : Job) (st : Status) (p : Option Nat)
    (cs em : Option String) (now : Nat) (pr : Nat) (cs2 : Option String) :
    (updateJobStatus j st p cs em now).status = st
    ∧ (updateJobProgress j pr cs2).status = j.status :=
  ⟨rfl, rfl⟩

/-- C9: updateJobStatus overwrites error_message with `errorMessage || null`
rather than COALESCE-merging it: a call without an error message erases a
previously stored message, while the same call keeps current_step and
progress; a nonempty message is stored verbatim. -/
theorem error_message_overwritten_not_merged (j : Job) (st : Status) (now : Nat)
    (p : Option Nat) (cs : Option String) :
    (updateJobStatus j st p cs none now).error_message = none
    ∧ (updateJobStatus j st none none none now).current_step = j.current_step
    ∧ (updateJobStatus j st none none none now).progress = j.progress
    ∧ ∀ s : String, s ≠ "" →
        (updateJobStatus j st p cs (some s) now).error_message = some s := by
  refine ⟨rfl, rfl, rfl, ?_⟩
  intro s hs
  simp [updateJobStatus, jsOrNullStr, hs]

/-- C9 witness: a failed job holding an error message loses it on the next
status update made without a message, and a later nonempty message is stored
as given. -/
theorem error_message_overwritten_not_merged_witness :
    (updateJobStatus demoFailedJob Status.processing none none none 9).error_message = none
    ∧ (updateJobStatus demoFailedJob Status.processing none none (some "boom") 9).error_message
        = some "boom" :=
  ⟨(error_message_overwritten_not_merged demoFailedJob Status.processing 9 none none).1,
   (error_message_overwritten_not_merged demoFailedJob Status.processing 9 none
     none).2.2.2 "boom" (by decide)⟩

theorem foldl_started_at (ws : List JobWrite) : ∀ j : Job,
    (ws.foldl applyWrite j).started_at
      = j.started_at.orElse (fun _ => firstStartTime ws) := by
  induction ws with
  | nil =>
    intro j
    cases hj : j.started_at <;> simp [firstStartTime, Option.orElse, hj]
  | cons w ws ih =>
    intro j
    cases w with
    | statusW st p cs em now =>
      rw [List.foldl_cons]
      rw [ih]
      cases hj : j.started_at <;>
        by_cases hst : st = Status.processing <;>
          simp [applyWrite, updateJobStatus, firstStartTime, Option.orElse, hj, hst]
    | progressW p cs =>
      rw [List.foldl_cons]
      rw [ih]
      cases hj : j.started_at <;>
        simp [applyWrite, updateJobProgress, firstStartTime, Option.orElse, hj]

theorem foldl_completed_at (ws : List JobWrite) : ∀ j : Job,
    (ws.foldl applyWrite j).completed_at
      = j.completed_at.orElse (fun _ => firstFinishTime ws) := by
  induction ws with
  | nil =>
    intro j
    cases hj : j.completed_at <;> simp [firstFinishTime, Option.orElse, hj]
  | cons w ws ih =>
    intro j
    cases w with
    | statusW st p cs em now =>
      rw [List.foldl_cons]
      rw [ih]
      cases hj : j.completed_at <;>
        by_cases hst : st = Status.completed ∨ st = Status.failed <;>
          simp [applyWrite, updateJobStatus, firstFinishTime, Option.orElse, hj, hst]
    | progressW p cs =>
      rw [List.foldl_cons]
      rw [ih]
      cases hj : j.completed_at <;>
        simp [applyWrite, updateJobProgress, firstFinishTime, Option.orElse, hj]

/-- C4: starting from a freshly created job, after any sequence of store
writes started_at equals the timestamp of the first write that set status to
processing, and completed_at equals the timestamp of the first write that set
status to completed or failed — each is written exactly once, at that first
write, and no later write changes it. -/
theorem timestamps_first_write_wins (ws : List JobWrite) :
    (ws.foldl applyWrite createJob).started_at = firstStartTime ws
    ∧ (ws.foldl applyWrite createJob).completed_at = firstFinishTime ws := by
  constructor
  · rw [foldl_started_at]
    rfl
  · rw [foldl_completed_at]
    rfl

/-- C10: updateDataset treats falsy update values as absent, so a call
passing total_frames = 0 leaves the stored value unchanged (in particular the
runner call made after resolving an empty dataset), the stored total_frames
can never become 0 unless it already was, and a present name, description or
metadata is never cleared. -/
theorem updateDataset_ignores_falsy (d : Dataset) (u : DatasetUpdates) :
    (u.total_frames = some 0 → (updateDataset d u).total_frames = d.total_frames)
    ∧ (d.total_frames ≠ some 0 → (updateDataset d u).total_frames ≠ some 0)
    ∧ d.name.isSome ≤ (updateDataset d u).name.isSome
    ∧ d.description.isSome ≤ (updateDataset d u).description.isSome
    ∧ d.metadata.isSome ≤ (updateDataset d u).metadata.isSome := by
  refine ⟨?_, ?_, ?_, ?_, ?_⟩
  · intro h
    simp [updateDataset, h, jsOrNullNat, Option.orElse]
  · intro h
    rcases hu : u.total_frames with _ | n
    · simpa [updateDataset, hu, jsOrNullNat, Option.orElse] using h
    · cases n with
      | zero => simpa [updateDataset, hu, jsOrNullNat, Option.orElse] using h
      | succ m => simp [updateDataset, hu, jsOrNullNat, Option.orElse]
  · rcases hu : u.name with _ | s
    · simp [updateDataset, hu, jsOrNullStr, Option.orElse]
    · by_cases hs : s = "" <;>
        simp [updateDataset, hu, jsOrNullStr, hs, Option.orElse]
  · rcases hu : u.description with _ | s
    · simp [updateDataset, hu, jsOrNullStr, Option.orElse]
    · by_cases hs : s = "" <;>
        simp [updateDataset, hu, jsOrNullStr, hs, Option.orElse]
  · rcases hu : u.metadata with _ | s
    · simp [updateDataset, hu, Option.orElse]
    · simp [updateDataset, hu, Option.orElse]

/-- C10 witness: on a dataset holding 5 frames, the runner-style update
passing total_frames = 0 leaves total_frames at 5, and cannot make it 0. -/
theorem updateDataset_ignores_falsy_witness :
    (updateDataset demoDataset
        { name := none, description := none, total_frames := some 0, metadata := none }).total_frames
      = demoDataset.total_frames
    ∧ (updateDataset demoDataset
        { name := none, description := none, total_frames := some 0, metadata := none }).total_frames
      ≠ some 0 :=
  ⟨(updateDataset_ignores_falsy demoDataset
      { name := none, description := none, total_frames := some 0, metadata := none }).1 rfl,
   (updateDataset_ignores_falsy demoDataset
      { name := none, description := none, total_frames := some 0, metadata := none }).2.1
     (by decide)⟩

/-- C6: in a row written by createCompressedOutput the stored ratio is
exactly the quotient of the stored sizes whenever both are present and is
absent whenever either is absent; the stored compressed size is never 0, so
the quotient is never a division by zero, and the ratio is a rational number
(no Infinity or NaN value exists in the model). -/
theorem compression_ratio_present_iff_sizes (jobId frameIndex : Nat)
    (o c : Option Nat) (lat : Option (List Nat)) (md : Option String) :
    ( OutputRow.compression_ratio (createCompressedOutput jobId frameIndex o c lat md)
      = Option.map₂ (fun a b => (a : ℚ) / (b : ℚ))
          (createCompressedOutput jobId frameIndex o c lat md).original_size
          (createCompressedOutput jobId frameIndex o c lat md).compressed_size)
    ∧ (Option.isSome
          ( OutputRow.compression_ratio (createCompressedOutput jobId frameIndex o c lat md))
        ↔ ((createCompressedOutput jobId frameIndex o c lat md).original_size.isSome
          ∧ (createCompressedOutput jobId frameIndex o c lat md).compressed_size.isSome
          ∧ 0 < (createCompressedOutput jobId frameIndex o c lat md).compressed_size.getD 0))
    ∧ 0 < (createCompressedOutput jobId frameIndex o c lat md).compressed_size.getD 1 := by
  rcases o with _ | o <;> rcases c with _ | c
  · simp [createCompressedOutput, jsOrNullNat, jsTruthyNat, Option.map₂]
  · cases c <;>
      simp [createCompressedOutput, jsOrNullNat, jsTruthyNat, Option.map₂]
  · cases o <;>
      simp [createCompressedOutput, jsOrNullNat, jsTruthyNat, Option.map₂]
  · cases o <;> cases c <;>
      simp [createCompressedOutput, jsOrNullNat, jsTruthyNat, Option.map₂]

/-- C7: for every stored table and job id, the result reader returns exactly
the rows of that job (a permutation of the filter) sorted by frame index
ascending; the statistics count every row of the job but average the
compression ratio only over the rows where it is present; and a job with zero
outputs yields the empty list and the all-NULL statistics row rather than an
error. -/
theorem result_reader_sorted_stats (tbl : List OutputRow) (jobId : Nat) :
    (getOutputsByJobId tbl jobId).Sorted byFrameIdx
    ∧ (getOutputsByJobId tbl jobId).Perm (tbl.filter (fun r => r.job_id == jobId))
    ∧ (getCompressionStats tbl jobId).total_frames
        = (tbl.filter (fun r => r.job_id == jobId)).length
    ∧ CompressionStats.avg_compression_ratio (getCompressionStats tbl jobId)
        = (if (tbl.filter (fun r => r.job_id == jobId)).filterMap
              (fun r => OutputRow.compression_ratio r) = [] then none
           else some ((((tbl.filter (fun r => r.job_id == jobId)).filterMap
              (fun r => OutputRow.compression_ratio r)).sum : ℚ)
            / (((tbl.filter (fun r => r.job_id == jobId)).filterMap
              (fun r => OutputRow.compression_ratio r)).length : ℚ)))
    ∧ getOutputsByJobId [] jobId = []
    ∧ getCompressionStats [] jobId
        = { total_frames := 0, total_original_size := none
            total_compressed_size := none, avg_compression_ratio := none } := by
  refine ⟨?_, ?_, ?_, ?_, ?_, ?_⟩
  · exact List.sorted_insertionSort byFrameIdx _
  · exact List.perm_insertionSort byFrameIdx _
  · rfl
  · simp [getCompressionStats, sqlAvgRat, List.filterMap_map, Function.comp]
  · rfl
  · rfl

/-- C8 counterexample: the external id "/" lacks the namespace/name shape
(both parts are empty), yet the submit handler accepts it and creates both a
dataset and a pending job — validation is only a slash-presence check and
does not reject every id that lacks the namespace/name shape. -/
theorem slash_only_id_accepted :
    hasNamespaceNameShape "/" = false
    ∧ (submitDataset ⟨[], []⟩ (some "/")).2.isCreated = true
    ∧ (submitDataset ⟨[], []⟩ (some "/")).1.datasets = [createDataset "/"]
    ∧ (submitDataset ⟨[], []⟩ (some "/")).1.jobs = [createJob] := by
  refine ⟨?_, rfl, rfl, rfl⟩
  decide

/-- C8 (amended): the submit operation rejects with a validation error
exactly when the id is missing, empty, or contains no slash character, and in
that case no dataset or job state is created; any id containing a slash —
even one with an empty namespace or name part, such as "/" — is accepted and
yields a dataset plus a new pending job. -/
theorem submit_validates_only_slash (st : SubmitState) (body : Option String) :
    (rejectedByHandler body = true →
      (submitDataset st body).1 = st
      ∧ (submitDataset st body).2.isCreated = false)
    ∧ (rejectedByHandler body = false →
      (submitDataset st body).1.jobs = st.jobs ++ [createJob]
      ∧ (submitDataset st body).2.isCreated = true
      ∧ createJob.status = Status.pending) := by
  rcases body with _ | s
  · constructor
    · intro _
      exact ⟨rfl, rfl⟩
    · intro h
      simp [rejectedByHandler] at h
  · by_cases hs : s = ""
    · constructor
      · intro _
        simp [submitDataset, hs, SubmitResp.isCreated]
      · intro h
        simp [rejectedByHandler, hs] at h
    · by_cases hc : '/' ∈ s.data
      · constructor
        · intro h
          simp [rejectedByHandler, hs, hc] at h
        · intro _
          rcases hf : st.datasets.find? (fun d => d.huggingface_id == s) with _ | d <;>
            simp [submitDataset, hs, hc, hf, SubmitResp.isCreated, createJob]
      · constructor
        · intro _
          simp [submitDataset, hs, hc, SubmitResp.isCreated]
        · intro h
          simp [rejectedByHandler, hs, hc] at h

/-- C8 amended witness: an id without a slash is rejected with the registry
untouched, while a well-formed id is accepted. -/
theorem submit_validates_only_slash_witness :
    (submitDataset ⟨[], []⟩ (some "abc")).1 = (⟨[], []⟩ : SubmitState)
    ∧ (submitDataset ⟨[], []⟩ (some "a/b")).2.isCreated = true :=
  ⟨((submit_validates_only_slash ⟨[], []⟩ (some "abc")).1 (by decide)).1,
   ((submit_validates_only_slash ⟨[], []⟩ (some "a/b")).2 (by decide)).2.1⟩

/-- C2 counterexample: the stub runner processDataset resolves an empty frame
set (its download stub always returns no frames), yet it completes the job
with three fabricated outputs instead of failing it. -/
theorem stub_runner_completes_on_empty_resolution :
    stubDownloadFrames = []
    ∧ (processDataset 1 (fun _ => 0) (fun _ => 0) 7 (freshStore "acme/demo")).job.status
        = Status.completed
    ∧ (processDataset 1 (fun _ => 0) (fun _ => 0) 7 (freshStore "acme/demo")).job.error_message
        = none
    ∧ (processDataset 1 (fun _ => 0) (fun _ => 0) 7 (freshStore "acme/demo")).outputs.length
        = 3 := by
  refine ⟨rfl, rfl, rfl, rfl⟩

/-- C2 (amended): the two runners diverge on an empty resolved frame set —
processJobInBackground transitions the job to failed with the descriptive
no-media error and writes no output, while the stub runner processDataset
(whose resolution is always empty) fabricates three mock frames and completes
the job with three outputs. -/
theorem background_runner_fails_on_empty_frames (jobId : Nat) (hfId hfMeta : String)
    (sizes : Nat → Nat × Nat) (now : Nat) (s : Store) :
    (processJobInBackground jobId hfId hfMeta sizes now [] s).job.status = Status.failed
    ∧ (processJobInBackground jobId hfId hfMeta sizes now [] s).job.error_message
        = some noMediaMsg
    ∧ (processJobInBackground jobId hfId hfMeta sizes now [] s).outputs = s.outputs := by
  refine ⟨rfl, ?_, rfl⟩
  show jsOrNullStr (some noMediaMsg) = some noMediaMsg
  simp [jsOrNullStr, noMediaMsg]

/-- C3 counterexample: running processJobInBackground twice on the same
one-frame job is not idempotent — the first run ends completed with one
output, the duplicated second run ends failed. -/
theorem rerun_after_completion_not_noop :
    (processJobInBackground 1 "acme/demo" "md" demoSizes 7 demoFrames
        (freshStore "acme/demo")).job.status = Status.completed
    ∧ (processJobInBackground 1 "acme/demo" "md" demoSizes 7 demoFrames
        (freshStore "acme/demo")).outputs.length = 1
    ∧ (processJobInBackground 1 "acme/demo" "md" demoSizes 8 demoFrames
        (processJobInBackground 1 "acme/demo" "md" demoSizes 7 demoFrames
          (freshStore "acme/demo"))).job.status = Status.failed := by
  refine ⟨rfl, rfl, rfl⟩

/-- C3 (amended): the runner checks no precondition on re-invocation: called
on a store whose outputs already hold a row keyed (jobId, first frame index),
it re-enters processing and then aborts on the UNIQUE(job_id, frame_index)
violation of the first insert, leaving the job failed with the duplicate-key
message and the outputs unchanged — a duplicated trigger is neither
idempotent nor a no-op. -/
theorem rerun_hits_unique_constraint (jobId : Nat) (hfId hfMeta : String)
    (sizes : Nat → Nat × Nat) (now : Nat) (f : HFFrame) (rest : List HFFrame) (s : Store)
    (h : s.outputs.any (fun r => r.job_id == jobId && r.frame_index == f.index) = true) :
    (processJobInBackground jobId hfId hfMeta sizes now (f :: rest) s).job.status
        = Status.failed
    ∧ (processJobInBackground jobId hfId hfMeta sizes now (f :: rest) s).job.error_message
        = some dupKeyMsg
    ∧ (processJobInBackground jobId hfId hfMeta sizes now (f :: rest) s).outputs
        = s.outputs := by
  have hlen : (f :: rest).length = 0 ↔ False := by simp
  simp only [processJobInBackground, pjibBody, pjibLoop, stCreateCompressedOutput,
    stUpdateJobStatus_outputs, stUpdateJobProgress_outputs, stUpdateDataset_outputs, h]
  simp [h, jsOrNullStr, dupKeyMsg, stUpdateJobStatus, updateJobStatus]

/-- C3 amended witness: on the completed store already holding the (1, 0)
output row, re-running the one-frame job ends failed. -/
theorem rerun_hits_unique_constraint_witness :
    (processJobInBackground 1 "acme/demo" "md" demoSizes 8 [⟨0, "f0.jpg"⟩]
        demoStoreWithOutput).job.status = Status.failed :=
  (rerun_hits_unique_constraint 1 "acme/demo" "md" demoSizes 8 ⟨0, "f0.jpg"⟩ []
    demoStoreWithOutput (by decide)).1

/-- C5 counterexample: in the trace of a one-frame run, the progress update
for the frame (step label Processing frame 1/1) is persisted at position 3
while the frame output is persisted at position 4 — the output is not written
before the progress update, contradicting the claimed per-frame write order. -/
theorem frame_progress_written_before_output :
    ((processJobInBackground 1 "acme/demo" "md" demoSizes 7 demoFrames
        (freshStore "acme/demo")).log).findIdx?
        (evIsFrameProgress (frameStep 0 1)) = some 3
    ∧ ((processJobInBackground 1 "acme/demo" "md" demoSizes 7 demoFrames
        (freshStore "acme/demo")).log).findIdx? (evIsOutput 0) = some 4
    ∧ outputPersistedBeforeProgress
        (processJobInBackground 1 "acme/demo" "md" demoSizes 7 demoFrames
          (freshStore "acme/demo")).log 0 0 1 = false := by
  refine ⟨?_, ?_, ?_⟩ <;> decide

theorem pjibLoop_ok (jobId : Nat) (sizes : Nat → Nat × Nat) (total : Nat) :
    ∀ (fs : List HFFrame) (i : Nat) (s : Store),
      (∀ f ∈ fs, ∀ r ∈ s.outputs, ¬(r.job_id = jobId ∧ r.frame_index = f.index)) →
      (fs.map HFFrame.index).Nodup →
      ∃ s1, pjibLoop jobId sizes total fs i s = Except.ok s1
        ∧ s1.log = s.log ++ loopEvents total fs i := by
  intro fs
  induction fs with
  | nil =>
    intro i s _ _
    exact ⟨s, rfl, by simp [loopEvents]⟩
  | cons f rest ih =>
    intro i s h hnd
    have hnotin : ((stUpdateJobProgress s (30 + i * 60 / total)
        (some (frameStep i total))).outputs.any
        (fun r => r.job_id == jobId && r.frame_index == f.index)) = false := by
      rw [stUpdateJobProgress_outputs]
      rw [List.any_eq_false]
      intro r hr
      have hfr := h f (List.mem_cons_self f rest) r hr
      simp only [Bool.and_eq_true, beq_iff_eq, not_and]
      intro h1 h2
      exact hfr ⟨h1, h2⟩
    have hins : stCreateCompressedOutput
        (stUpdateJobProgress s (30 + i * 60 / total) (some (frameStep i total)))
        jobId f.index (some (sizes i).1) (some (sizes i).2) none (some f.filename)
        = Except.ok
          { stUpdateJobProgress s (30 + i * 60 / total) (some (frameStep i total)) with
            outputs := (stUpdateJobProgress s (30 + i * 60 / total)
                (some (frameStep i total))).outputs ++
              [createCompressedOutput jobId f.index (some (sizes i).1)
                (some (sizes i).2) none (some f.filename)]
            log := (stUpdateJobProgress s (30 + i * 60 / total)
                (some (frameStep i total))).log ++ [Ev.outputWrite f.index] } := by
      unfold stCreateCompressedOutput
      rw [hnotin]
      rfl
    have hnd1 : (rest.map HFFrame.index).Nodup := by
      simp only [List.map_cons, List.nodup_cons] at hnd
      exact hnd.2
    have hfidx : f.index ∉ rest.map HFFrame.index := by
      simp only [List.map_cons, List.nodup_cons] at hnd
      exact hnd.1
    have h1 : ∀ g ∈ rest, ∀ r ∈ ((stUpdateJobProgress s (30 + i * 60 / total)
        (some (frameStep i total))).outputs ++
        [createCompressedOutput jobId f.index (some (sizes i).1)
          (some (sizes i).2) none (some f.filename)]),
        ¬(r.job_id = jobId ∧ r.frame_index = g.index) := by
      intro g hg r hr
      rw [stUpdateJobProgress_outputs] at hr
      rcases List.mem_append.mp hr with hold | hnew
      · exact h g (List.mem_cons_of_mem f hg) r hold
      · have hre : r = createCompressedOutput jobId f.index (some (sizes i).1)
            (some (sizes i).2) none (some f.filename) := by
          simpa using hnew
        intro hcontra
        apply hfidx
        have hri : r.frame_index = f.index := by rw [hre]; rfl
        rw [← hri, hcontra.2]
        exact List.mem_map_of_mem HFFrame.index hg
    rcases ih (i + 1)
        { stUpdateJobProgress s (30 + i * 60 / total) (some (frameStep i total)) with
          outputs := (stUpdateJobProgress s (30 + i * 60 / total)
              (some (frameStep i total))).outputs ++
            [createCompressedOutput jobId f.index (some (sizes i).1)
              (some (sizes i).2) none (some f.filename)]
          log := (stUpdateJobProgress s (30 + i * 60 / total)
              (some (frameStep i total))).log ++ [Ev.outputWrite f.index] }
        h1 hnd1 with ⟨s1, hok, hlog⟩
    refine ⟨s1, ?_, ?_⟩
    · show pjibLoop jobId sizes total (f :: rest) i s = Except.ok s1
      simp only [pjibLoop]
      rw [hins]
      exact hok
    · rw [hlog]
      simp [stUpdateJobProgress, loopEvents]

theorem loopEvents_get (total : Nat) :
    ∀ (fs : List HFFrame) (i p : Nat) (hp : p < fs.length),
      (loopEvents total fs i).get? (2 * p)
        = some (Ev.progressWrite (30 + (i + p) * 60 / total)
            (some (frameStep (i + p) total)))
      ∧ (loopEvents total fs i).get? (2 * p + 1)
        = some (Ev.outputWrite (fs.get ⟨p, hp⟩).index) := by
  intro fs
  induction fs with
  | nil =>
    intro i p hp
    exact absurd hp (by simp)
  | cons f rest ih =>
    intro i p hp
    cases p with
    | zero =>
      constructor
      · simp [loopEvents]
      · simp [loopEvents]
    | succ q =>
      have hq : q < rest.length := by
        simpa [Nat.succ_lt_succ_iff] using hp
      have h2 : 2 * (q + 1) = 2 * q + 1 + 1 := by omega
      have h3 : 2 * (q + 1) + 1 = (2 * q + 1) + 1 + 1 := by omega
      have := ih (i + 1) q hq
      constructor
      · rw [h2]
        simp only [loopEvents, List.get?]
        have harith : i + 1 + q = i + (q + 1) := by omega
        rw [← harith]
        exact this.1
      · rw [h3]
        simp only [loopEvents, List.get?]
        exact this.2

/-- C5 (amended): within each frame the runner persists the per-frame
progress update first and the frame output immediately after it — the
reverse of the claimed order; on a fresh store with distinct frame indices
the full trace is the processing status write, the dataset write and the
frame-count progress write, then per frame the progress write followed by
the output write, then the completed status write. Because the progress
value written before frame p only counts the p frames already persisted,
progress still never reports a frame as done before its output is stored. -/
theorem per_frame_progress_precedes_output (jobId : Nat) (hfId hfMeta : String)
    (sizes : Nat → Nat × Nat) (now : Nat) (frames : List HFFrame)
    (hnd : (frames.map HFFrame.index).Nodup) (hne : frames ≠ []) :
    (processJobInBackground jobId hfId hfMeta sizes now frames (freshStore hfId)).log
      = [Ev.statusWrite Status.processing (some 10)
            (some "Downloading dataset from HuggingFace") none,
         Ev.datasetWrite (some frames.length),
         Ev.progressWrite 30 (some ("Compressing " ++ toString frames.length ++ " frames"))]
        ++ loopEvents frames.length frames 0
        ++ [Ev.statusWrite Status.completed (some 100)
            (some ("Successfully compressed " ++ toString frames.length ++
              " frames from " ++ hfId)) none]
    ∧ ∀ p (hp : p < frames.length),
        (loopEvents frames.length frames 0).get? (2 * p)
          = some (Ev.progressWrite (30 + p * 60 / frames.length)
              (some (frameStep p frames.length)))
        ∧ (loopEvents frames.length frames 0).get? (2 * p + 1)
          = some (Ev.outputWrite (frames.get ⟨p, hp⟩).index) := by
  constructor
  · have hlen : frames.length ≠ 0 := by
      simpa [List.length_eq_zero] using hne
    have hvac : ∀ f ∈ frames, ∀ r ∈ (freshStore hfId).outputs,
        ¬(r.job_id = jobId ∧ r.frame_index = f.index) := by
      intro f _ r hr
      simp [freshStore] at hr
    rcases pjibLoop_ok jobId sizes frames.length frames 0
        (stUpdateJobProgress
          (stUpdateDataset
            (stUpdateJobStatus (freshStore hfId) Status.processing (some 10)
              (some "Downloading dataset from HuggingFace") none now)
            { name := none, description := none
              total_frames := some frames.length, metadata := some hfMeta })
          30 (some ("Compressing " ++ toString frames.length ++ " frames")))
        (by
          intro f hf r hr
          simp only [stUpdateJobProgress_outputs, stUpdateDataset_outputs,
            stUpdateJobStatus_outputs] at hr
          exact hvac f hf r hr)
        hnd with ⟨s1, hok, hlog⟩
    simp only [processJobInBackground, pjibBody, hlen, if_neg hlen, hok]
    simp only [stUpdateJobStatus, stUpdateJobProgress, stUpdateDataset, freshStore] at hlog ⊢
    simp [hlog]
  · intro p hp
    have := loopEvents_get frames.length frames 0 p hp
    simpa using this

/-- C5 amended witness: in a fresh two-frame run the first two loop events
are the progress write for frame 1 of 2 followed by the output write of
frame index 0. -/
theorem per_frame_progress_precedes_output_witness :
    (loopEvents 2 demoFrames2 0).get? 0
      = some (Ev.progressWrite 30 (some (frameStep 0 2)))
    ∧ (loopEvents 2 demoFrames2 0).get? 1 = some (Ev.outputWrite 0) := by
  have h := (per_frame_progress_precedes_output 1 "acme/demo" "md" demoSizes 7
    demoFrames2 (by decide) (by decide)).2 0 (by decide)
  constructor
  · have h1 := h.1
    simpa using h1
  · have h2 := h.2
    simpa using h2

end MechGen
